import Mathlib

/-!
Verification of the generic DAO of benbotto/ndm-generic-dao.

The repository holds two generations of the DAO:

* the legacy `GenericDao` (src/generic-dao/GenericDao.js and the first
  document of src/unnamed/part_000), whose `retrieve` validates the query
  parameters with a `ModelValidator` before executing the select, and
* the current `ndm_GenericDao` (second document of src/unnamed/part_000,
  lines 362-748), exercised by src/generic-dao/GenericDaoSpec.js, whose
  `_retrieve` performs no parameter validation and whose `_replace`
  asserts the exactly-one-relationship condition before validating the
  parent identifier.

Both are embedded below.  The external collaborators (schema catalog,
query builder/executor, validator family, caller-supplied condition and
error callbacks) are parameters of the operations, matching the spec's
interface boundary.  Promise chains are sequential, so every operation is
a pure function returning its outcome together with the ordered trace of
executor calls (the I/O events) and condition invocations.
-/

namespace NdmDao

/-- Scalar values carried by resources and query parameters (the subset of
JS values the DAO manipulates). -/
inductive Value
  | vInt (n : Int)
  | vStr (s : String)
  | vBool (b : Bool)
  | vNull
deriving DecidableEq

/-- One row / model object: an association list from external (mapped)
field names to values.  JS objects have unique keys; the operations below
only ever touch the first occurrence of a key, which coincides with JS
semantics on such records. -/
abbrev Resource := List (String × Value)

/-- Parameter mapping of a where condition: placeholder name to bound
value. -/
abbrev Params := List (String × Value)

/-- Field lookup, `r[k]`: `none` models JS `undefined`. -/
def lookupField : Resource → String → Option Value
  | [], _ => none
  | (k1, v) :: rest, k => if k1 = k then some v else lookupField rest k

/-- Field assignment, `r[k] = v`: overwrites the existing entry in place,
or appends a fresh one. -/
def setField : Resource → String → Value → Resource
  | [], k, v => [(k, v)]
  | (k1, v1) :: rest, k, v =>
    if k1 = k then (k, v) :: rest else (k1, v1) :: setField rest k v

/-- Field removal, `delete r[k]`. -/
def removeField : Resource → String → Resource
  | [], _ => []
  | (k1, v1) :: rest, k =>
    if k1 = k then removeField rest k else (k1, v1) :: removeField rest k

/-- Column descriptor of the schema catalog. -/
structure Column where
  name : String
  mapTo : String
  dataType : String
  isNullable : Bool
  isPrimary : Bool
deriving DecidableEq

/-- Table descriptor: name, external mapping, columns, primary-key column
set.  The legacy API's `getAlias()` corresponds to `mapTo`. -/
structure Table where
  name : String
  mapTo : String
  columns : List Column
  primaryKey : List Column
deriving DecidableEq

/-- Column lookup by internal name (`Table.prototype.getColumnByName`);
`none` models the JS lookup miss. -/
def Table.getColumnByName (t : Table) (n : String) : Option Column :=
  t.columns.find? (fun c => c.name = n)

/-- A foreign-key relationship record as returned by
`relStore.getRelationships(child, parent, true)`: only the `column`
property (the child's foreign-key column name) is consumed by the DAO. -/
structure Relationship where
  column : String
deriving DecidableEq

/-- Schema catalog: the tables plus the one-directional relationship
lookup `relStore.getRelationships(childTable, parentTable, true)`. -/
structure Database where
  tables : List Table
  relationships : String → String → List Relationship

/-- Table lookup by name (`Database.prototype.getTableByName`). -/
def Database.getTableByName (db : Database) (n : String) : Option Table :=
  db.tables.find? (fun t => t.name = n)

/-- One field-level validation error (field name and message). -/
structure ValErr where
  field : String
  message : String
deriving DecidableEq

/-- The ordered list of field-level errors a validator rejects with. -/
abbrev ValErrList := List ValErr

/-- The error taxonomy surfaced by the DAO. -/
inductive Err
  | validationErrorList (errors : ValErrList)
  | notFound (msg : String)
  | duplicate (msg : String) (field : Option String) (id : Option Value)
  | assertion (msg : String)
  | thrown (msg : String)
  | storage (msg : String)
  | custom (n : Nat)
deriving DecidableEq

/-- A where condition.  The DAO only ever builds equality conditions on a
fully-qualified column name against a named placeholder; caller-supplied
conditions are passed through opaquely, so the equality form suffices for
the embedding. -/
inductive WhereCond
  | eq (fqName : String) (placeholder : String)
deriving DecidableEq

/-- A built query: the target table and the optional where clause with
its parameter mapping. -/
structure Query where
  table : String
  whereClause : Option (WhereCond × Params)
deriving DecidableEq

/-- Events observable at the executor / callback boundary, in execution
order.  All but `condition` are I/O. -/
inductive Ev
  | select (q : Query)
  | update (mapping : String) (r : Resource)
  | deleteByResource (mapping : String) (r : Resource)
  | deleteWhere (q : Query)
  | insert (mapping : String) (r : Resource)
  | insertBulk (mapping : String) (rs : List Resource)
  | condition (r : Resource)
deriving DecidableEq

/-- Whether an event is an I/O event (a call into the query executor). -/
def Ev.isStorageCall : Ev → Bool
  | .condition _ => false
  | _ => true

/-- The query builder / executor collaborator.  Select results are keyed
by table mapping (`res[tblMapping]`), modelled as a function from mapping
name to row list.  `update`/`del`/`delWhere` yield the affected-row
count.  `insert` resolves after mutating the model in place with its
generated identifier, so it returns the post-insert resource;
`insertBulk` likewise returns the keyed, post-insert resources. -/
structure Executor where
  select : Query → Except Err (String → List Resource)
  update : String → Resource → Except Err Nat
  del : String → Resource → Except Err Nat
  delWhere : Query → Except Err Nat
  insert : String → Resource → Except Err Resource
  insertBulk : String → List Resource → Except Err (String → List Resource)

/-- The validator family (insert-, update- and delete-mode).  Each is
constructed with the payload, the table mapping and the database, and
either succeeds or fails with an ordered list of field-level errors. -/
structure Validators where
  insertValidate : Resource → String → Database → Except ValErrList Unit
  updateValidate : Resource → String → Database → Except ValErrList Unit
  deleteValidate : Resource → String → Database → Except ValErrList Unit

/-- Builds the select/delete query: `dc.from(name)` plus
`query.where(where, params)` when a where condition is given. -/
def buildQuery (tblName : String) (whereC : Option WhereCond) (params : Params) : Query :=
  { table := tblName, whereClause := whereC.map (fun w => (w, params)) }

/-- Retrieve of ndm_GenericDao (`_retrieve`, src/unnamed/part_000 lines
391-402): builds the select, executes it, and projects the result at the
table's mapping.  No validation is performed. -/
def ndmRetrieve (table : Table) (exec : Executor) (whereC : Option WhereCond)
    (params : Params) : Except Err (List Resource) × List Ev :=
  let q := buildQuery table.name whereC params
  match exec.select q with
  | .error e => (.error e, [Ev.select q])
  | .ok res => (.ok (res table.mapTo), [Ev.select q])

/-- Retrieve of the legacy GenericDao (src/generic-dao/GenericDao.js
lines 28-41): validates the parameter mapping with a `ModelValidator`
(passed in as `modelValidate`) and executes the select only on success.
The legacy `getAlias()` is `mapTo` here. -/
def legacyRetrieve (table : Table) (db : Database)
    (modelValidate : Params → String → Database → Except ValErrList Unit)
    (exec : Executor) (whereC : Option WhereCond) (params : Params) :
    Except Err (List Resource) × List Ev :=
  let q := buildQuery table.name whereC params
  match modelValidate params table.mapTo db with
  | .error el => (.error (Err.validationErrorList el), [])
  | .ok _ =>
    match exec.select q with
    | .error e => (.error e, [Ev.select q])
    | .ok res => (.ok (res table.mapTo), [Ev.select q])

/-- RetrieveSingle of ndm_GenericDao (`_retrieveSingle`, part_000 lines
409-423): delegates to retrieve; an empty result rejects with
`NotFoundError('Resource not found.')`, run through `onNotFound` when
supplied; otherwise resolves with the first row. -/
def ndmRetrieveSingle (table : Table) (exec : Executor) (whereC : Option WhereCond)
    (params : Params) (onNotFound : Option (Err → Err)) :
    Except Err Resource × List Ev :=
  match ndmRetrieve table exec whereC params with
  | (.error e, tr) => (.error e, tr)
  | (.ok res, tr) =>
    match res with
    | [] =>
      let err := Err.notFound "Resource not found."
      match onNotFound with
      | some f => (.error (f err), tr)
      | none => (.error err, tr)
    | r :: _ => (.ok r, tr)

/-- RetrieveByID of ndm_GenericDao (`_retrieveByID`, part_000 lines
430-438): builds the primary-key equality condition and parameter
mapping and delegates to retrieveSingle with an `onNotFound` producing
`NotFoundError('Invalid {pkName}.')`. -/
def ndmRetrieveByID (table : Table) (exec : Executor) (id : Value) :
    Except Err Resource × List Ev :=
  match table.primaryKey.head? with
  | none => (.error (Err.thrown "Cannot read property of undefined."), [])
  | some pk =>
    let pkName := pk.name
    let fqcn := table.mapTo ++ "." ++ pkName
    let whereC := WhereCond.eq fqcn (":" ++ pkName)
    let params : Params := [(pkName, id)]
    let onNotFound : Err → Err := fun _ => Err.notFound ("Invalid " ++ pkName ++ ".")
    ndmRetrieveSingle table exec (some whereC) params (some onNotFound)

/-- IsUnique of ndm_GenericDao (`_isUnique`, part_000 lines 445-461):
resolves `true` on zero matches; otherwise rejects with a
`DuplicateError('Duplicate resource.', null, id)` where `id` is the
first match's primary-key (mapped) field, run through `onDupe` when
supplied. -/
def ndmIsUnique (table : Table) (exec : Executor) (whereC : Option WhereCond)
    (params : Params) (onDupe : Option (Err → Err)) :
    Except Err Bool × List Ev :=
  match ndmRetrieve table exec whereC params with
  | (.error e, tr) => (.error e, tr)
  | (.ok dupe, tr) =>
    match dupe with
    | [] => (.ok true, tr)
    | d :: _ =>
      match table.primaryKey.head? with
      | none => (.error (Err.thrown "Cannot read property of undefined."), tr)
      | some pk =>
        let id := lookupField d pk.mapTo
        let err := Err.duplicate "Duplicate resource." none id
        match onDupe with
        | some f => (.error (f err), tr)
        | none => (.error err, tr)

/-- CreateIf of ndm_GenericDao (`_createIf`, part_000 lines 468-476):
insert-mode validation, then the condition, then the insert; resolves
with the resource (mutated in place by the executor with its generated
identifier, hence the executor's post-insert resource). -/
def ndmCreateIf (table : Table) (db : Database) (vals : Validators) (exec : Executor)
    (resource : Resource) (condition : Resource → Except Err Unit) :
    Except Err Resource × List Ev :=
  let tblMapping := table.mapTo
  match vals.insertValidate resource tblMapping db with
  | .error el => (.error (Err.validationErrorList el), [])
  | .ok _ =>
    match condition resource with
    | .error e => (.error e, [Ev.condition resource])
    | .ok _ =>
      match exec.insert tblMapping resource with
      | .error e => (.error e, [Ev.condition resource, Ev.insert tblMapping resource])
      | .ok rInserted =>
        (.ok rInserted, [Ev.condition resource, Ev.insert tblMapping resource])

/-- Create of ndm_GenericDao (`_create`, part_000 lines 483-486):
createIf with a no-op condition. -/
def ndmCreate (table : Table) (db : Database) (vals : Validators) (exec : Executor)
    (resource : Resource) : Except Err Resource × List Ev :=
  ndmCreateIf table db vals exec resource (fun _ => .ok ())

/-- UpdateIf of ndm_GenericDao (`_updateIf`, part_000 lines 493-504):
update-mode validation, then the condition, then the update; resolves
with the resource when exactly one row was affected, else rejects with
`NotFoundError('Resource not found.')`. -/
def ndmUpdateIf (table : Table) (db : Database) (vals : Validators) (exec : Executor)
    (resource : Resource) (condition : Resource → Except Err Unit) :
    Except Err Resource × List Ev :=
  let tblMapping := table.mapTo
  match vals.updateValidate resource tblMapping db with
  | .error el => (.error (Err.validationErrorList el), [])
  | .ok _ =>
    match condition resource with
    | .error e => (.error e, [Ev.condition resource])
    | .ok _ =>
      match exec.update tblMapping resource with
      | .error e => (.error e, [Ev.condition resource, Ev.update tblMapping resource])
      | .ok n =>
        if n = 1 then (.ok resource, [Ev.condition resource, Ev.update tblMapping resource])
        else (.error (Err.notFound "Resource not found."),
          [Ev.condition resource, Ev.update tblMapping resource])

/-- Update of ndm_GenericDao (`_update`, part_000 lines 511-514):
updateIf with a no-op condition. -/
def ndmUpdate (table : Table) (db : Database) (vals : Validators) (exec : Executor)
    (resource : Resource) : Except Err Resource × List Ev :=
  ndmUpdateIf table db vals exec resource (fun _ => .ok ())

/-- Delete of ndm_GenericDao (`_delete`, part_000 lines 521-531):
delete-mode validation, then the delete keyed by the resource; resolves
with the resource when exactly one row was affected, else rejects with
`NotFoundError('Resource not found.')`. -/
def ndmDelete (table : Table) (db : Database) (vals : Validators) (exec : Executor)
    (resource : Resource) : Except Err Resource × List Ev :=
  let tblMapping := table.mapTo
  match vals.deleteValidate resource tblMapping db with
  | .error el => (.error (Err.validationErrorList el), [])
  | .ok _ =>
    match exec.del tblMapping resource with
    | .error e => (.error e, [Ev.deleteByResource tblMapping resource])
    | .ok n =>
      if n = 1 then (.ok resource, [Ev.deleteByResource tblMapping resource])
      else (.error (Err.notFound "Resource not found."),
        [Ev.deleteByResource tblMapping resource])

/-- The message of the `ndm_assert` in `_replace`. -/
def replaceAssertMsg : String :=
  "Replace can only be performed if there is exactly one relationship " ++
  "between the parent and child tables."

/-- First rejection of the `deferred.map` validation batch, in array
order.  The batch is concurrent but unordered only in completion; the
embedding settles the nondeterministic choice of which rejection wins on
the first failing item. -/
def firstError : List (Except ValErrList Unit) → Option ValErrList
  | [] => none
  | .error e :: _ => some e
  | .ok _ :: rest => firstError rest

/-- The in-place mutation `_replace` applies to each item:
`r[fkMapping] = pID` then `delete r[pkMapping]`. -/
def mutateChild (fkMapping pkMapping : String) (pID : Value) (r : Resource) : Resource :=
  removeField (setField r fkMapping pID) pkMapping

/-- The delete query `_replace` builds:
`from(tblName).where({$eq: {tblName.fkName: :pPKMapping}}, parent).delete()`
with `parent = {pPKMapping: pID}`. -/
def replaceDeleteQuery (tblName fkName pPKMapping : String) (pID : Value) : Query :=
  { table := tblName
    whereClause := some (WhereCond.eq (tblName ++ "." ++ fkName) (":" ++ pPKMapping),
      [(pPKMapping, pID)]) }

/-- Replace of ndm_GenericDao (`_replace`, part_000 lines 538-590).
Synchronous prefix: resolve the parent table, the primary keys, the
relationship list, and assert exactly one relationship.  Then: validate
`{parentPK: parentID}` in delete mode against the parent table; mutate
each resource in place (set the foreign key, drop the identifier);
validate every mutated resource in insert mode; delete the existing
child rows by foreign key; bulk-insert the mutated resources; resolve
with the inserted rows.  The third component is the caller's resources
array after the in-place mutations. -/
def ndmReplace (table : Table) (db : Database) (vals : Validators) (exec : Executor)
    (pTblName : String) (pID : Value) (resources : List Resource) :
    Except Err (List Resource) × List Ev × List Resource :=
  match db.getTableByName pTblName with
  | none => (.error (Err.thrown "Table not found."), [], resources)
  | some pTbl =>
    match pTbl.primaryKey.head?, table.primaryKey.head? with
    | some pPK, some pk =>
      let pTblMapping := pTbl.mapTo
      let pPKMapping := pPK.mapTo
      let parent : Resource := [(pPKMapping, pID)]
      let tblName := table.name
      let tblMapping := table.mapTo
      let pkMapping := pk.mapTo
      match db.relationships tblName pTblName with
      | [fk] =>
        match table.getColumnByName fk.column with
        | none => (.error (Err.thrown "Column not found."), [], resources)
        | some fkCol =>
          let fkMapping := fkCol.mapTo
          match vals.deleteValidate parent pTblMapping db with
          | .error el => (.error (Err.validationErrorList el), [], resources)
          | .ok _ =>
            let mutated := resources.map (mutateChild fkMapping pkMapping pID)
            match firstError (mutated.map (fun r => vals.insertValidate r tblMapping db)) with
            | some el => (.error (Err.validationErrorList el), [], mutated)
            | none =>
              let q : Query := replaceDeleteQuery tblName fk.column pPKMapping pID
              match exec.delWhere q with
              | .error e => (.error e, [Ev.deleteWhere q], mutated)
              | .ok _ =>
                match exec.insertBulk tblMapping mutated with
                | .error e =>
                  (.error e, [Ev.deleteWhere q, Ev.insertBulk tblMapping mutated], mutated)
                | .ok m =>
                  (.ok (m tblMapping),
                    [Ev.deleteWhere q, Ev.insertBulk tblMapping mutated], m tblMapping)
      | _ => (.error (Err.assertion replaceAssertMsg), [], resources)
    | _, _ => (.error (Err.thrown "Cannot read property of undefined."), [], resources)

/-! Concrete fixtures mirroring the repository's test database
(src/spec/testDBSchema.js as exercised by GenericDaoSpec.js): a `users`
table and a `phone_numbers` child table related through `userID`. -/

/-- The `users` table of the test schema. -/
def usersTable : Table :=
  { name := "users"
    mapTo := "users"
    columns :=
      [ { name := "userID", mapTo := "ID", dataType := "int",
          isNullable := false, isPrimary := true }
      , { name := "firstName", mapTo := "first", dataType := "varchar",
          isNullable := false, isPrimary := false }
      , { name := "lastName", mapTo := "last", dataType := "varchar",
          isNullable := false, isPrimary := false } ]
    primaryKey :=
      [ { name := "userID", mapTo := "ID", dataType := "int",
          isNullable := false, isPrimary := true } ] }

/-- The `phone_numbers` table of the test schema (child of `users`). -/
def phoneTable : Table :=
  { name := "phone_numbers"
    mapTo := "phoneNumbers"
    columns :=
      [ { name := "phoneNumberID", mapTo := "ID", dataType := "int",
          isNullable := false, isPrimary := true }
      , { name := "userID", mapTo := "uID", dataType := "int",
          isNullable := false, isPrimary := false }
      , { name := "phoneNumber", mapTo := "phoneNumber", dataType := "varchar",
          isNullable := false, isPrimary := false } ]
    primaryKey :=
      [ { name := "phoneNumberID", mapTo := "ID", dataType := "int",
          isNullable := false, isPrimary := true } ] }

/-- The test database: one relationship from `phone_numbers` to `users`
through the child column `userID`. -/
def testDB : Database :=
  { tables := [usersTable, phoneTable]
    relationships := fun c p =>
      if c = "phone_numbers" && p = "users" then [{ column := "userID" }] else [] }

/-- A variant of the test database with the relationship missing (used to
exercise the relationship-count assertion of replace). -/
def testDBNoRel : Database :=
  { tables := [usersTable, phoneTable]
    relationships := fun _ _ => [] }

/-- Concrete validator family behaving like bsy-validation on the test
schema: insert mode requires `phoneNumber` on phone numbers and
`first`/`last` on users; update mode requires `ID`; delete mode requires
`ID` to be an integer. -/
def testVals : Validators :=
  { insertValidate := fun r m _ =>
      if m = "phoneNumbers" then
        match lookupField r "phoneNumber" with
        | some _ => .ok ()
        | none => .error [{ field := "phoneNumber", message := "phoneNumber is required." }]
      else if m = "users" then
        match lookupField r "first", lookupField r "last" with
        | some _, some _ => .ok ()
        | _, _ => .error [{ field := "first", message := "first is required." }]
      else .ok ()
    updateValidate := fun r _ _ =>
      match lookupField r "ID" with
      | some _ => .ok ()
      | none => .error [{ field := "ID", message := "ID is required." }]
    deleteValidate := fun r _ _ =>
      match lookupField r "ID" with
      | some (Value.vInt _) => .ok ()
      | _ => .error [{ field := "ID", message := "ID is not a valid integer." }] }

/-- A configurable fixture executor: `rows` is what every select returns
at any mapping, `updN`/`delN`/`delWhereN` are the affected-row counts,
single inserts attach identifier 42, bulk inserts echo the given
resources at the given mapping. -/
def mkExec (rows : List Resource) (updN delN delWhereN : Nat) : Executor :=
  { select := fun _ => .ok (fun _ => rows)
    update := fun _ _ => .ok updN
    del := fun _ _ => .ok delN
    delWhere := fun _ => .ok delWhereN
    insert := fun _ r => .ok (setField r "ID" (Value.vInt 42))
    insertBulk := fun m rs => .ok (fun m1 => if m1 = m then rs else []) }

/-- A fixture resource valid for every mode on the `users` table. -/
def goodUser : Resource :=
  [("ID", Value.vInt 42), ("first", Value.vStr "Joe"), ("last", Value.vStr "Dimaggio")]

/-- The primary-key column descriptor of the `users` table. -/
def userPK : Column :=
  { name := "userID", mapTo := "ID", dataType := "int",
    isNullable := false, isPrimary := true }

/-- The primary-key column descriptor of the `phone_numbers` table. -/
def phonePK : Column :=
  { name := "phoneNumberID", mapTo := "ID", dataType := "int",
    isNullable := false, isPrimary := true }

/-- The foreign-key column of `phone_numbers` referencing `users`. -/
def phoneUserFK : Column :=
  { name := "userID", mapTo := "uID", dataType := "int",
    isNullable := false, isPrimary := false }

/-- A fixture model-mode validator behaving like `ModelValidator` on the
test schema: rejects a `userID` query parameter that is not an integer. -/
def modelValidateFixture : Params → String → Database → Except ValErrList Unit :=
  fun ps _ _ =>
    match lookupField ps "userID" with
    | some (Value.vInt _) => .ok ()
    | some _ => .error [{ field := "userID", message := "userID is not a valid integer." }]
    | none => .ok ()

/-- The fixture executor with a failing delete-by-where (models a storage
failure during replace's delete step). -/
def execDelWhereFail : Executor :=
  { mkExec [] 1 1 1 with delWhere := fun _ => .error (Err.storage "delete failed") }

/-! Helper lemmas about the field operations. -/

theorem lookupField_setField_self (r : Resource) (k : String) (v : Value) :
    lookupField (setField r k v) k = some v := by
  induction r with
  | nil => simp [setField, lookupField]
  | cons p rest ih =>
    obtain ⟨k1, v1⟩ := p
    by_cases h : k1 = k
    · simp [setField, h, lookupField]
    · simp [setField, h, lookupField, ih]

theorem lookupField_removeField_self (r : Resource) (k : String) :
    lookupField (removeField r k) k = none := by
  induction r with
  | nil => simp [removeField, lookupField]
  | cons p rest ih =>
    obtain ⟨k1, v1⟩ := p
    by_cases h : k1 = k
    · simp [removeField, h, ih]
    · simp [removeField, h, lookupField, ih]

theorem lookupField_removeField_ne (r : Resource) (k k1 : String) (hne : k1 ≠ k) :
    lookupField (removeField r k) k1 = lookupField r k1 := by
  induction r with
  | nil => simp [removeField]
  | cons p rest ih =>
    obtain ⟨k2, v2⟩ := p
    by_cases h : k2 = k
    · subst h
      have : k2 ≠ k1 := fun hh => hne (hh ▸ rfl)
      simp [removeField, lookupField, this, ih]
    · simp [removeField, h, lookupField, ih]

theorem lookupField_mutateChild_fk (fkMapping pkMapping : String) (pID : Value)
    (r : Resource) (hne : fkMapping ≠ pkMapping) :
    lookupField (mutateChild fkMapping pkMapping pID r) fkMapping = some pID := by
  unfold mutateChild
  rw [lookupField_removeField_ne _ _ _ hne, lookupField_setField_self]

theorem lookupField_mutateChild_pk (fkMapping pkMapping : String) (pID : Value)
    (r : Resource) :
    lookupField (mutateChild fkMapping pkMapping pID r) pkMapping = none := by
  unfold mutateChild
  exact lookupField_removeField_self _ _

/-- C4: for every resource passing validation (and, for updateIf, whose
condition succeeds), an affected-row count of exactly 1 makes
update/updateIf resolve with the resource itself, unchanged, and delete
likewise; an affected-row count of 0 makes them fail with a NotFoundError
whose message is "Resource not found.". -/
theorem C4_update_delete_affected_rows
    (table : Table) (db : Database) (vals : Validators) (exec : Executor)
    (resource : Resource) (condition : Resource → Except Err Unit)
    (hu : vals.updateValidate resource table.mapTo db = .ok ())
    (hd : vals.deleteValidate resource table.mapTo db = .ok ())
    (hc : condition resource = .ok ())
    (n m : Nat)
    (hn : exec.update table.mapTo resource = .ok n)
    (hm : exec.del table.mapTo resource = .ok m) :
    (n = 1 → (ndmUpdateIf table db vals exec resource condition).1 = .ok resource
      ∧ (ndmUpdate table db vals exec resource).1 = .ok resource)
    ∧ (n = 0 → (ndmUpdateIf table db vals exec resource condition).1
        = .error (Err.notFound "Resource not found.")
      ∧ (ndmUpdate table db vals exec resource).1
        = .error (Err.notFound "Resource not found."))
    ∧ (m = 1 → (ndmDelete table db vals exec resource).1 = .ok resource)
    ∧ (m = 0 → (ndmDelete table db vals exec resource).1
        = .error (Err.notFound "Resource not found.")) := by
  refine ⟨?_, ?_, ?_, ?_⟩ <;> intro h <;> subst h <;>
    simp [ndmUpdateIf, ndmUpdate, ndmDelete, hu, hd, hc, hn, hm]

/-- Closed instance of C4 at the test fixtures: update with affected-row
count 1 resolves with the resource itself; delete with affected-row
count 0 rejects with NotFoundError "Resource not found.". -/
theorem C4_update_delete_affected_rows_witness :
    (ndmUpdateIf usersTable testDB testVals (mkExec [] 1 0 1) goodUser
        (fun _ => .ok ())).1 = .ok goodUser
    ∧ (ndmDelete usersTable testDB testVals (mkExec [] 1 0 1) goodUser).1
        = .error (Err.notFound "Resource not found.") := by
  have h := C4_update_delete_affected_rows usersTable testDB testVals (mkExec [] 1 0 1)
    goodUser (fun _ => .ok ()) rfl rfl rfl 1 0 rfl rfl
  exact ⟨(h.1 rfl).1, h.2.2.2 rfl⟩

/-- C9: after validation passes (and the condition succeeds), update/updateIf
and delete resolve exactly when the affected-row count is 1; every other
count, including counts greater than 1, rejects with a NotFoundError whose
message is "Resource not found.". -/
theorem C9_affected_rows_not_one
    (table : Table) (db : Database) (vals : Validators) (exec : Executor)
    (resource : Resource) (condition : Resource → Except Err Unit)
    (hu : vals.updateValidate resource table.mapTo db = .ok ())
    (hd : vals.deleteValidate resource table.mapTo db = .ok ())
    (hc : condition resource = .ok ())
    (n m : Nat)
    (hn : exec.update table.mapTo resource = .ok n)
    (hm : exec.del table.mapTo resource = .ok m) :
    ((ndmUpdateIf table db vals exec resource condition).1 = .ok resource ↔ n = 1)
    ∧ (n ≠ 1 → (ndmUpdateIf table db vals exec resource condition).1
        = .error (Err.notFound "Resource not found."))
    ∧ ((ndmDelete table db vals exec resource).1 = .ok resource ↔ m = 1)
    ∧ (m ≠ 1 → (ndmDelete table db vals exec resource).1
        = .error (Err.notFound "Resource not found.")) := by
  refine ⟨?_, ?_, ?_, ?_⟩
  · by_cases h1 : n = 1 <;> simp [ndmUpdateIf, hu, hc, hn, h1]
  · intro h1; simp [ndmUpdateIf, hu, hc, hn, h1]
  · by_cases h1 : m = 1 <;> simp [ndmDelete, hd, hm, h1]
  · intro h1; simp [ndmDelete, hd, hm, h1]

/-- Closed instance of C9 at the test fixtures with affected-row count 2
for both update and delete: both reject with NotFoundError "Resource not
found.". -/
theorem C9_affected_rows_not_one_witness :
    (ndmUpdateIf usersTable testDB testVals (mkExec [] 2 2 1) goodUser
        (fun _ => .ok ())).1 = .error (Err.notFound "Resource not found.")
    ∧ (ndmDelete usersTable testDB testVals (mkExec [] 2 2 1) goodUser).1
        = .error (Err.notFound "Resource not found.") := by
  have h := C9_affected_rows_not_one usersTable testDB testVals (mkExec [] 2 2 1)
    goodUser (fun _ => .ok ()) rfl rfl rfl 2 2 rfl rfl
  exact ⟨h.2.1 (by decide), h.2.2.2 (by decide)⟩

/-- C5: retrieve with zero matches resolves with the empty sequence, not an
error; retrieveSingle with zero matches rejects with a NotFoundError whose
message is "Resource not found.", and when an onNotFound callback is
supplied, the error it produces from that default error is what propagates;
with one or more matches retrieveSingle resolves with exactly the first
element of the result sequence. -/
theorem C5_retrieve_zero_or_more_matches
    (table : Table) (exec : Executor) (whereC : Option WhereCond) (params : Params)
    (resMap : String → List Resource)
    (hsel : exec.select (buildQuery table.name whereC params) = .ok resMap) :
    (resMap table.mapTo = [] →
      (ndmRetrieve table exec whereC params).1 = .ok []
      ∧ (ndmRetrieveSingle table exec whereC params none).1
          = .error (Err.notFound "Resource not found.")
      ∧ ∀ f : Err → Err, (ndmRetrieveSingle table exec whereC params (some f)).1
          = .error (f (Err.notFound "Resource not found.")))
    ∧ (∀ r rest, resMap table.mapTo = r :: rest →
      ∀ onf, (ndmRetrieveSingle table exec whereC params onf).1 = .ok r) := by
  constructor
  · intro hempty
    refine ⟨?_, ?_, fun f => ?_⟩ <;>
      simp [ndmRetrieve, ndmRetrieveSingle, hsel, hempty]
  · intro r rest hcons onf
    simp [ndmRetrieve, ndmRetrieveSingle, hsel, hcons]

/-- Closed instance of C5 at the test fixtures: an empty result makes
retrieve resolve with the empty list and retrieveSingle reject with the
default or callback-produced NotFoundError; a three-row result makes
retrieveSingle resolve with the first row. -/
theorem C5_retrieve_zero_or_more_matches_witness :
    (ndmRetrieve usersTable (mkExec [] 1 1 1) none []).1 = .ok []
    ∧ (ndmRetrieveSingle usersTable (mkExec [] 1 1 1) none [] none).1
        = .error (Err.notFound "Resource not found.")
    ∧ (ndmRetrieveSingle usersTable (mkExec [] 1 1 1) none []
        (some (fun _ => Err.notFound "CUSTOM ERROR"))).1
        = .error (Err.notFound "CUSTOM ERROR")
    ∧ (ndmRetrieveSingle usersTable
        (mkExec [[("ID", Value.vInt 4)], [("ID", Value.vInt 5)], [("ID", Value.vInt 6)]] 1 1 1)
        none [] none).1 = .ok [("ID", Value.vInt 4)] := by
  have h1 := C5_retrieve_zero_or_more_matches usersTable (mkExec [] 1 1 1) none []
    (fun _ => []) rfl
  have h2 := C5_retrieve_zero_or_more_matches usersTable
    (mkExec [[("ID", Value.vInt 4)], [("ID", Value.vInt 5)], [("ID", Value.vInt 6)]] 1 1 1)
    none []
    (fun _ => [[("ID", Value.vInt 4)], [("ID", Value.vInt 5)], [("ID", Value.vInt 6)]]) rfl
  refine ⟨(h1.1 rfl).1, (h1.1 rfl).2.1, (h1.1 rfl).2.2 _, ?_⟩
  exact h2.2 [("ID", Value.vInt 4)] [[("ID", Value.vInt 5)], [("ID", Value.vInt 6)]] rfl none

/-- C6: createIf first runs insert-mode validation; on failure it rejects
with the ValidationErrorList, performs no I/O, and never invokes the
condition.  On success it invokes the condition with the resource; a
condition failure propagates unchanged (the very error value, unwrapped)
and no insert occurs.  Only when the condition succeeds is the insert
executed, after which createIf resolves with the (possibly
identifier-mutated) resource. -/
theorem C6_createIf_protocol
    (table : Table) (db : Database) (vals : Validators) (exec : Executor)
    (resource : Resource) :
    (∀ el, vals.insertValidate resource table.mapTo db = .error el →
      ∀ condition, ndmCreateIf table db vals exec resource condition
        = (.error (Err.validationErrorList el), []))
    ∧ (vals.insertValidate resource table.mapTo db = .ok () →
      ∀ condition e, condition resource = .error e →
        ndmCreateIf table db vals exec resource condition
          = (.error e, [Ev.condition resource]))
    ∧ (vals.insertValidate resource table.mapTo db = .ok () →
      ∀ condition, condition resource = .ok () →
        ∀ rIns, exec.insert table.mapTo resource = .ok rIns →
          ndmCreateIf table db vals exec resource condition
            = (.ok rIns, [Ev.condition resource, Ev.insert table.mapTo resource])) := by
  refine ⟨?_, ?_, ?_⟩
  · intro el hv condition
    simp [ndmCreateIf, hv]
  · intro hv condition e hcond
    simp [ndmCreateIf, hv, hcond]
  · intro hv condition hcond rIns hins
    simp [ndmCreateIf, hv, hcond, hins]

/-- Closed instance of C6 at the test fixtures: an invalid user rejects
with the ValidationErrorList and an empty trace (no I/O, no condition
call); a failing condition on a valid user propagates the condition's
error with only the condition call traced; a succeeding condition leads
to the insert and resolution with the identifier-carrying resource. -/
theorem C6_createIf_protocol_witness :
    ndmCreateIf usersTable testDB testVals (mkExec [] 1 1 1) [] (fun _ => .ok ())
      = (.error (Err.validationErrorList
          [{ field := "first", message := "first is required." }]), [])
    ∧ ndmCreateIf usersTable testDB testVals (mkExec [] 1 1 1)
        [("first", Value.vStr "Joe"), ("last", Value.vStr "Dimaggio")]
        (fun _ => .error (Err.custom 7))
      = (.error (Err.custom 7),
          [Ev.condition [("first", Value.vStr "Joe"), ("last", Value.vStr "Dimaggio")]])
    ∧ ndmCreateIf usersTable testDB testVals (mkExec [] 1 1 1)
        [("first", Value.vStr "Joe"), ("last", Value.vStr "Dimaggio")]
        (fun _ => .ok ())
      = (.ok [("first", Value.vStr "Joe"), ("last", Value.vStr "Dimaggio"),
              ("ID", Value.vInt 42)],
          [Ev.condition [("first", Value.vStr "Joe"), ("last", Value.vStr "Dimaggio")],
           Ev.insert "users" [("first", Value.vStr "Joe"), ("last", Value.vStr "Dimaggio")]]) := by
  refine ⟨?_, ?_, ?_⟩
  · exact (C6_createIf_protocol usersTable testDB testVals (mkExec [] 1 1 1) []).1
      [{ field := "first", message := "first is required." }] rfl _
  · exact (C6_createIf_protocol usersTable testDB testVals (mkExec [] 1 1 1)
      [("first", Value.vStr "Joe"), ("last", Value.vStr "Dimaggio")]).2.1 rfl _
      (Err.custom 7) rfl
  · exact (C6_createIf_protocol usersTable testDB testVals (mkExec [] 1 1 1)
      [("first", Value.vStr "Joe"), ("last", Value.vStr "Dimaggio")]).2.2 rfl _ rfl _ rfl

/-- C7: isUnique resolves with true exactly when the candidate query
returns zero rows; otherwise it rejects with a DuplicateError whose
identifier is the first matching row's primary-key (mapped) field, and
when onDupe is supplied, the error onDupe produces from that
DuplicateError is what propagates. -/
theorem C7_isUnique_duplicate
    (table : Table) (exec : Executor) (whereC : Option WhereCond) (params : Params)
    (resMap : String → List Resource) (pk : Column)
    (hsel : exec.select (buildQuery table.name whereC params) = .ok resMap)
    (hpk : table.primaryKey.head? = some pk) :
    (∀ od, ((ndmIsUnique table exec whereC params od).1 = .ok true
      ↔ resMap table.mapTo = []))
    ∧ (∀ d rest, resMap table.mapTo = d :: rest →
      (ndmIsUnique table exec whereC params none).1
        = .error (Err.duplicate "Duplicate resource." none (lookupField d pk.mapTo))
      ∧ ∀ f, (ndmIsUnique table exec whereC params (some f)).1
          = .error (f (Err.duplicate "Duplicate resource." none (lookupField d pk.mapTo)))) := by
  constructor
  · intro od
    rcases hrows : resMap table.mapTo with _ | ⟨d, rest⟩
    · simp [ndmIsUnique, ndmRetrieve, hsel, hrows]
    · cases od <;> simp [ndmIsUnique, ndmRetrieve, hsel, hrows, hpk]
  · intro d rest hrows
    constructor
    · simp [ndmIsUnique, ndmRetrieve, hsel, hrows, hpk]
    · intro f
      simp [ndmIsUnique, ndmRetrieve, hsel, hrows, hpk]

/-- Closed instance of C7 at the test fixtures: with no matching rows
isUnique resolves with true; with a matching row it rejects with a
DuplicateError carrying the match's mapped primary-key value 42, and an
onDupe callback's produced error is what propagates. -/
theorem C7_isUnique_duplicate_witness :
    (ndmIsUnique usersTable (mkExec [] 1 1 1) none [] none).1 = .ok true
    ∧ (ndmIsUnique usersTable (mkExec [[("ID", Value.vInt 42)]] 1 1 1) none [] none).1
        = .error (Err.duplicate "Duplicate resource." none (some (Value.vInt 42)))
    ∧ (ndmIsUnique usersTable (mkExec [[("ID", Value.vInt 42)]] 1 1 1) none []
        (some (fun _ => Err.custom 3))).1 = .error (Err.custom 3) := by
  have h1 := C7_isUnique_duplicate usersTable (mkExec [] 1 1 1) none []
    (fun _ => []) userPK rfl rfl
  have h2 := C7_isUnique_duplicate usersTable (mkExec [[("ID", Value.vInt 42)]] 1 1 1)
    none [] (fun _ => [[("ID", Value.vInt 42)]]) userPK rfl rfl
  refine ⟨(h1.1 none).mpr rfl, ?_, ?_⟩
  · exact (h2.2 [("ID", Value.vInt 42)] [] rfl).1
  · exact (h2.2 [("ID", Value.vInt 42)] [] rfl).2 (fun _ => Err.custom 3)

/-- C8: retrieveByID(id) is exactly retrieveSingle invoked with the
equality where-condition on the table's primary-key column
(fully qualified as mapTo.pkName against the placeholder :pkName), the
parameter mapping binding pkName to id, and an onNotFound producing a
NotFoundError with message "Invalid {pkName}." in place of the
default. -/
theorem C8_retrieveByID_refines_retrieveSingle
    (table : Table) (exec : Executor) (id : Value) (pk : Column)
    (hpk : table.primaryKey.head? = some pk) :
    ndmRetrieveByID table exec id
      = ndmRetrieveSingle table exec
          (some (WhereCond.eq (table.mapTo ++ "." ++ pk.name) (":" ++ pk.name)))
          [(pk.name, id)]
          (some (fun _ => Err.notFound ("Invalid " ++ pk.name ++ "."))) := by
  simp [ndmRetrieveByID, hpk]

/-- Closed instance of C8 on the users table: retrieveByID(42) equals
retrieveSingle with the userID equality condition, the {userID: 42}
parameter mapping, and the "Invalid userID."-producing callback. -/
theorem C8_retrieveByID_refines_retrieveSingle_witness :
    ndmRetrieveByID usersTable (mkExec [] 1 1 1) (Value.vInt 42)
      = ndmRetrieveSingle usersTable (mkExec [] 1 1 1)
          (some (WhereCond.eq "users.userID" ":userID"))
          [("userID", Value.vInt 42)]
          (some (fun _ => Err.notFound "Invalid userID.")) := by
  exact C8_retrieveByID_refines_retrieveSingle usersTable (mkExec [] 1 1 1) (Value.vInt 42)
    userPK rfl

/-- C1 counterexample: on the current ndm_GenericDao retrieve, a call whose
parameter mapping the validation collaborator rejects (userID bound to the
non-integer "asdf") still executes the select (an I/O event is traced) and
resolves with the rows — it does not fail with a ValidationErrorList and
it does perform I/O, so the claim is false as stated for this retrieve. -/
theorem C1_retrieve_validation_counterexample :
    modelValidateFixture [("userID", Value.vStr "asdf")] "users" testDB
      = .error [{ field := "userID", message := "userID is not a valid integer." }]
    ∧ ndmRetrieve usersTable (mkExec [[("ID", Value.vInt 1)]] 1 1 1)
        (some (WhereCond.eq "users.userID" ":userID")) [("userID", Value.vStr "asdf")]
      = (.ok [[("ID", Value.vInt 1)]],
         [Ev.select (buildQuery "users" (some (WhereCond.eq "users.userID" ":userID"))
            [("userID", Value.vStr "asdf")])])
    ∧ Ev.isStorageCall (Ev.select (buildQuery "users"
         (some (WhereCond.eq "users.userID" ":userID"))
         [("userID", Value.vStr "asdf")])) = true := by
  exact ⟨rfl, rfl, rfl⟩

/-- C1 amended: the validate-before-execute contract holds for the legacy
GenericDao retrieve (src/generic-dao/GenericDao.js): on parameter-validation
failure it fails with the ValidationErrorList and performs no I/O (no select
executed), and only on validation success is the select executed; the
current ndm_GenericDao retrieve performs no parameter validation and
executes the select on every call. -/
theorem C1_retrieve_validation_amended
    (table : Table) (db : Database)
    (modelValidate : Params → String → Database → Except ValErrList Unit)
    (exec : Executor) (whereC : Option WhereCond) (params : Params) :
    (∀ el, modelValidate params table.mapTo db = .error el →
      legacyRetrieve table db modelValidate exec whereC params
        = (.error (Err.validationErrorList el), []))
    ∧ (modelValidate params table.mapTo db = .ok () →
      (legacyRetrieve table db modelValidate exec whereC params).2
        = [Ev.select (buildQuery table.name whereC params)])
    ∧ (ndmRetrieve table exec whereC params).2
        = [Ev.select (buildQuery table.name whereC params)] := by
  refine ⟨?_, ?_, ?_⟩
  · intro el hval
    simp [legacyRetrieve, hval]
  · intro hval
    rcases hq : exec.select (buildQuery table.name whereC params) with e | res <;>
      simp [legacyRetrieve, hval, hq]
  · rcases hq : exec.select (buildQuery table.name whereC params) with e | res <;>
      simp [ndmRetrieve, hq]

/-- Closed instance of the amended C1: on the legacy retrieve, the invalid
userID parameter mapping produces the ValidationErrorList with an empty
trace, a valid mapping leads to exactly one executed select, and the ndm
retrieve executes its select on the very same invalid mapping. -/
theorem C1_retrieve_validation_amended_witness :
    legacyRetrieve usersTable testDB modelValidateFixture (mkExec [] 1 1 1)
        (some (WhereCond.eq "users.userID" ":userID")) [("userID", Value.vStr "asdf")]
      = (.error (Err.validationErrorList
          [{ field := "userID", message := "userID is not a valid integer." }]), [])
    ∧ (legacyRetrieve usersTable testDB modelValidateFixture (mkExec [] 1 1 1)
        (some (WhereCond.eq "users.userID" ":userID")) [("userID", Value.vInt 1)]).2
      = [Ev.select (buildQuery "users" (some (WhereCond.eq "users.userID" ":userID"))
          [("userID", Value.vInt 1)])]
    ∧ (ndmRetrieve usersTable (mkExec [] 1 1 1)
        (some (WhereCond.eq "users.userID" ":userID")) [("userID", Value.vStr "asdf")]).2
      = [Ev.select (buildQuery "users" (some (WhereCond.eq "users.userID" ":userID"))
          [("userID", Value.vStr "asdf")])] := by
  have h1 := C1_retrieve_validation_amended usersTable testDB modelValidateFixture
    (mkExec [] 1 1 1) (some (WhereCond.eq "users.userID" ":userID"))
    [("userID", Value.vStr "asdf")]
  have h2 := C1_retrieve_validation_amended usersTable testDB modelValidateFixture
    (mkExec [] 1 1 1) (some (WhereCond.eq "users.userID" ":userID"))
    [("userID", Value.vInt 1)]
  exact ⟨h1.1 [{ field := "userID", message := "userID is not a valid integer." }] rfl,
    h2.2.1 rfl, h1.2.2⟩

/-- C3 counterexample: with zero relationships between the child and parent
tables and a parentID the delete-mode validator rejects, replace fails with
the assertion failure, not with the ValidationErrorList that completing
step 1 (parentID validation) before step 2 (relationship lookup) would
produce — so the claimed step ordering is false on the code. -/
theorem C3_replace_step_order_counterexample :
    testVals.deleteValidate [("ID", Value.vStr "asdf")] "users" testDBNoRel
      = .error [{ field := "ID", message := "ID is not a valid integer." }]
    ∧ ndmReplace phoneTable testDBNoRel testVals (mkExec [] 1 1 1) "users"
        (Value.vStr "asdf") [[("phoneNumber", Value.vStr "111-222-3333")]]
      = (.error (Err.assertion replaceAssertMsg), [],
         [[("phoneNumber", Value.vStr "111-222-3333")]])
    ∧ Err.assertion replaceAssertMsg
        ≠ Err.validationErrorList
            [{ field := "ID", message := "ID is not a valid integer." }] := by
  refine ⟨rfl, rfl, by decide⟩

/-- C3 amended: replace resolves the parent table and locates the
foreign-key relationship synchronously, before the parentID validation
runs; when zero or more than one relationship exists it fails fast with an
assertion failure (distinct from ordinary validation and not-found errors)
with no I/O and no validation performed, for every validator family; only
when exactly one relationship exists does the delete-mode validation of
the parent primary key bound to parentID run, and its failure surfaces as
the ValidationErrorList before any mutation. -/
theorem C3_replace_assert_before_validation
    (table : Table) (db : Database) (vals : Validators) (exec : Executor)
    (pTblName : String) (pID : Value) (resources : List Resource)
    (pTbl : Table) (pPK pk : Column)
    (hpt : db.getTableByName pTblName = some pTbl)
    (hppk : pTbl.primaryKey.head? = some pPK)
    (hpk : table.primaryKey.head? = some pk) :
    ((db.relationships table.name pTblName).length ≠ 1 →
      ndmReplace table db vals exec pTblName pID resources
        = (.error (Err.assertion replaceAssertMsg), [], resources))
    ∧ (∀ fk fkCol el, db.relationships table.name pTblName = [fk] →
        table.getColumnByName fk.column = some fkCol →
        vals.deleteValidate [(pPK.mapTo, pID)] pTbl.mapTo db = .error el →
        ndmReplace table db vals exec pTblName pID resources
          = (.error (Err.validationErrorList el), [], resources)) := by
  constructor
  · intro hlen
    rcases hrel : db.relationships table.name pTblName with _ | ⟨a, _ | ⟨b, t⟩⟩
    · simp [ndmReplace, hpt, hppk, hpk, hrel]
    · rw [hrel] at hlen
      simp at hlen
    · simp [ndmReplace, hpt, hppk, hpk, hrel]
  · intro fk fkCol el hrel hcol hval
    simp [ndmReplace, hpt, hppk, hpk, hrel, hcol, hval]

/-- Closed instance of the amended C3: with no relationship between
phone_numbers and users, replace fails with the assertion failure even for
a valid parentID; with the single relationship present and an invalid
parentID, it fails with the ValidationErrorList. -/
theorem C3_replace_assert_before_validation_witness :
    ndmReplace phoneTable testDBNoRel testVals (mkExec [] 1 1 1) "users"
        (Value.vInt 42) []
      = (.error (Err.assertion replaceAssertMsg), [], [])
    ∧ ndmReplace phoneTable testDB testVals (mkExec [] 1 1 1) "users"
        (Value.vStr "asdf") [[("phoneNumber", Value.vStr "1")]]
      = (.error (Err.validationErrorList
          [{ field := "ID", message := "ID is not a valid integer." }]), [],
         [[("phoneNumber", Value.vStr "1")]]) := by
  have h1 := C3_replace_assert_before_validation phoneTable testDBNoRel testVals
    (mkExec [] 1 1 1) "users" (Value.vInt 42) [] usersTable userPK phonePK rfl rfl rfl
  have h2 := C3_replace_assert_before_validation phoneTable testDB testVals
    (mkExec [] 1 1 1) "users" (Value.vStr "asdf") [[("phoneNumber", Value.vStr "1")]]
    usersTable userPK phonePK rfl rfl rfl
  refine ⟨h1.1 (by decide), ?_⟩
  exact h2.2 { column := "userID" } phoneUserFK
    [{ field := "ID", message := "ID is not a valid integer." }] rfl rfl rfl

/-- C2: after the parent lookup, the relationship assertion and the
parentID validation succeed, replace mutates the items (foreign key set to
parentID, prior identifier removed) and validates them in insert mode; if
any item fails validation, replace fails with the ValidationErrorList and
its trace is empty — no delete of the old child rows and no insert is
executed; if every item passes and the storage steps succeed, the trace is
exactly one delete filtered by the foreign key bound to parentID, strictly
followed by one bulk insert of the mutated items, and replace resolves
with the inserted resources; each inserted item carries the foreign-key
field equal to parentID and no identifier field. -/
theorem C2_replace_validate_before_delete_before_insert
    (table : Table) (db : Database) (vals : Validators) (exec : Executor)
    (pTblName : String) (pID : Value) (resources : List Resource)
    (pTbl : Table) (pPK pk : Column) (fk : Relationship) (fkCol : Column)
    (hpt : db.getTableByName pTblName = some pTbl)
    (hppk : pTbl.primaryKey.head? = some pPK)
    (hpk : table.primaryKey.head? = some pk)
    (hrel : db.relationships table.name pTblName = [fk])
    (hcol : table.getColumnByName fk.column = some fkCol)
    (hpv : vals.deleteValidate [(pPK.mapTo, pID)] pTbl.mapTo db = .ok ()) :
    (∀ el,
      firstError ((resources.map (mutateChild fkCol.mapTo pk.mapTo pID)).map
          (fun r => vals.insertValidate r table.mapTo db)) = some el →
      ndmReplace table db vals exec pTblName pID resources
        = (.error (Err.validationErrorList el), [],
           resources.map (mutateChild fkCol.mapTo pk.mapTo pID)))
    ∧ (firstError ((resources.map (mutateChild fkCol.mapTo pk.mapTo pID)).map
          (fun r => vals.insertValidate r table.mapTo db)) = none →
      ∀ nDel, exec.delWhere (replaceDeleteQuery table.name fk.column pPK.mapTo pID)
          = .ok nDel →
      ∀ m, exec.insertBulk table.mapTo
          (resources.map (mutateChild fkCol.mapTo pk.mapTo pID)) = .ok m →
      ndmReplace table db vals exec pTblName pID resources
        = (.ok (m table.mapTo),
           [Ev.deleteWhere (replaceDeleteQuery table.name fk.column pPK.mapTo pID),
            Ev.insertBulk table.mapTo
              (resources.map (mutateChild fkCol.mapTo pk.mapTo pID))],
           m table.mapTo))
    ∧ (fkCol.mapTo ≠ pk.mapTo →
      ∀ r, r ∈ resources.map (mutateChild fkCol.mapTo pk.mapTo pID) →
        lookupField r fkCol.mapTo = some pID ∧ lookupField r pk.mapTo = none) := by
  refine ⟨?_, ?_, ?_⟩
  · intro el hv
    rw [List.map_map] at hv
    simp [ndmReplace, hpt, hppk, hpk, hrel, hcol, hpv, hv]
  · intro hv nDel hdel m hins
    rw [List.map_map] at hv
    simp [ndmReplace, hpt, hppk, hpk, hrel, hcol, hpv, hv, hdel, hins]
  · intro hne r hr
    obtain ⟨r0, hr0, rfl⟩ := List.mem_map.mp hr
    exact ⟨lookupField_mutateChild_fk _ _ _ _ hne, lookupField_mutateChild_pk _ _ _ _⟩

/-- Closed instance of C2 on the test schema: replacing user 42's phone
numbers with one item missing its required field fails with the
ValidationErrorList and an empty trace (old rows untouched, no insert);
replacing with a valid item traces exactly the foreign-key delete followed
by the bulk insert of the mutated item (uID set to 42, prior ID removed)
and resolves with the inserted resources. -/
theorem C2_replace_validate_before_delete_before_insert_witness :
    ndmReplace phoneTable testDB testVals (mkExec [] 1 1 1) "users" (Value.vInt 42)
        [[]]
      = (.error (Err.validationErrorList
          [{ field := "phoneNumber", message := "phoneNumber is required." }]), [],
         [[("uID", Value.vInt 42)]])
    ∧ ndmReplace phoneTable testDB testVals (mkExec [] 1 1 1) "users" (Value.vInt 42)
        [[("ID", Value.vInt 30), ("phoneNumber", Value.vStr "111-222-3333")]]
      = (.ok [[("phoneNumber", Value.vStr "111-222-3333"), ("uID", Value.vInt 42)]],
         [Ev.deleteWhere (replaceDeleteQuery "phone_numbers" "userID" "ID" (Value.vInt 42)),
          Ev.insertBulk "phoneNumbers"
            [[("phoneNumber", Value.vStr "111-222-3333"), ("uID", Value.vInt 42)]]],
         [[("phoneNumber", Value.vStr "111-222-3333"), ("uID", Value.vInt 42)]]) := by
  have h1 := C2_replace_validate_before_delete_before_insert phoneTable testDB testVals
    (mkExec [] 1 1 1) "users" (Value.vInt 42) [[]]
    usersTable userPK phonePK { column := "userID" } phoneUserFK rfl rfl rfl rfl rfl rfl
  have h2 := C2_replace_validate_before_delete_before_insert phoneTable testDB testVals
    (mkExec [] 1 1 1) "users" (Value.vInt 42)
    [[("ID", Value.vInt 30), ("phoneNumber", Value.vStr "111-222-3333")]]
    usersTable userPK phonePK { column := "userID" } phoneUserFK rfl rfl rfl rfl rfl rfl
  refine ⟨?_, ?_⟩
  · exact h1.1 [{ field := "phoneNumber", message := "phoneNumber is required." }] rfl
  · exact h2.2.1 rfl 1 rfl
      (fun m1 => if m1 = "phoneNumbers"
        then [[("phoneNumber", Value.vStr "111-222-3333"), ("uID", Value.vInt 42)]]
        else []) rfl

/-- C10: once the parent lookup, the relationship assertion and the
parentID validation succeed, every item of the caller's resources array is
mutated — the foreign-key field set to parentID and the primary-key field
deleted — before item validation runs, and the mutated array is what the
caller is left with even when replace subsequently fails with a
ValidationErrorList, with a storage error from the delete step, or with a
storage error from the insert step. -/
theorem C10_replace_mutates_input_in_place
    (table : Table) (db : Database) (vals : Validators) (exec : Executor)
    (pTblName : String) (pID : Value) (resources : List Resource)
    (pTbl : Table) (pPK pk : Column) (fk : Relationship) (fkCol : Column)
    (hpt : db.getTableByName pTblName = some pTbl)
    (hppk : pTbl.primaryKey.head? = some pPK)
    (hpk : table.primaryKey.head? = some pk)
    (hrel : db.relationships table.name pTblName = [fk])
    (hcol : table.getColumnByName fk.column = some fkCol)
    (hpv : vals.deleteValidate [(pPK.mapTo, pID)] pTbl.mapTo db = .ok ()) :
    (∀ el,
      firstError ((resources.map (mutateChild fkCol.mapTo pk.mapTo pID)).map
          (fun r => vals.insertValidate r table.mapTo db)) = some el →
      (ndmReplace table db vals exec pTblName pID resources).2.2
          = resources.map (mutateChild fkCol.mapTo pk.mapTo pID)
        ∧ (ndmReplace table db vals exec pTblName pID resources).1
          = .error (Err.validationErrorList el))
    ∧ (firstError ((resources.map (mutateChild fkCol.mapTo pk.mapTo pID)).map
          (fun r => vals.insertValidate r table.mapTo db)) = none →
      ∀ e, exec.delWhere (replaceDeleteQuery table.name fk.column pPK.mapTo pID)
          = .error e →
      ndmReplace table db vals exec pTblName pID resources
        = (.error e,
           [Ev.deleteWhere (replaceDeleteQuery table.name fk.column pPK.mapTo pID)],
           resources.map (mutateChild fkCol.mapTo pk.mapTo pID)))
    ∧ (firstError ((resources.map (mutateChild fkCol.mapTo pk.mapTo pID)).map
          (fun r => vals.insertValidate r table.mapTo db)) = none →
      ∀ nDel, exec.delWhere (replaceDeleteQuery table.name fk.column pPK.mapTo pID)
          = .ok nDel →
      ∀ e, exec.insertBulk table.mapTo
          (resources.map (mutateChild fkCol.mapTo pk.mapTo pID)) = .error e →
      ndmReplace table db vals exec pTblName pID resources
        = (.error e,
           [Ev.deleteWhere (replaceDeleteQuery table.name fk.column pPK.mapTo pID),
            Ev.insertBulk table.mapTo
              (resources.map (mutateChild fkCol.mapTo pk.mapTo pID))],
           resources.map (mutateChild fkCol.mapTo pk.mapTo pID)))
    ∧ (fkCol.mapTo ≠ pk.mapTo → ∀ r, r ∈ resources →
      lookupField (mutateChild fkCol.mapTo pk.mapTo pID r) fkCol.mapTo = some pID
        ∧ lookupField (mutateChild fkCol.mapTo pk.mapTo pID r) pk.mapTo = none) := by
  refine ⟨?_, ?_, ?_, ?_⟩
  · intro el hv
    rw [List.map_map] at hv
    constructor <;> simp [ndmReplace, hpt, hppk, hpk, hrel, hcol, hpv, hv]
  · intro hv e hdel
    rw [List.map_map] at hv
    simp [ndmReplace, hpt, hppk, hpk, hrel, hcol, hpv, hv, hdel]
  · intro hv nDel hdel e hins
    rw [List.map_map] at hv
    simp [ndmReplace, hpt, hppk, hpk, hrel, hcol, hpv, hv, hdel, hins]
  · intro hne r hr
    exact ⟨lookupField_mutateChild_fk _ _ _ _ hne, lookupField_mutateChild_pk _ _ _ _⟩

/-- Closed instance of C10 on the test schema: an empty item is left
mutated to {uID: 42} in the caller's array although replace fails with the
ValidationErrorList; a valid item with a prior ID is left mutated (ID
removed, uID set to 42) although the delete step fails at the storage
layer. -/
theorem C10_replace_mutates_input_in_place_witness :
    (ndmReplace phoneTable testDB testVals (mkExec [] 1 1 1) "users" (Value.vInt 42)
        [[]]).2.2 = [[("uID", Value.vInt 42)]]
    ∧ (ndmReplace phoneTable testDB testVals (mkExec [] 1 1 1) "users" (Value.vInt 42)
        [[]]).1 = .error (Err.validationErrorList
          [{ field := "phoneNumber", message := "phoneNumber is required." }])
    ∧ ndmReplace phoneTable testDB testVals execDelWhereFail "users" (Value.vInt 42)
        [[("ID", Value.vInt 30), ("phoneNumber", Value.vStr "111-222-3333")]]
      = (.error (Err.storage "delete failed"),
         [Ev.deleteWhere (replaceDeleteQuery "phone_numbers" "userID" "ID" (Value.vInt 42))],
         [[("phoneNumber", Value.vStr "111-222-3333"), ("uID", Value.vInt 42)]]) := by
  have h1 := C10_replace_mutates_input_in_place phoneTable testDB testVals
    (mkExec [] 1 1 1) "users" (Value.vInt 42) [[]]
    usersTable userPK phonePK { column := "userID" } phoneUserFK rfl rfl rfl rfl rfl rfl
  have h2 := C10_replace_mutates_input_in_place phoneTable testDB testVals
    execDelWhereFail "users" (Value.vInt 42)
    [[("ID", Value.vInt 30), ("phoneNumber", Value.vStr "111-222-3333")]]
    usersTable userPK phonePK { column := "userID" } phoneUserFK rfl rfl rfl rfl rfl rfl
  refine ⟨?_, ?_, ?_⟩
  · exact (h1.1 [{ field := "phoneNumber", message := "phoneNumber is required." }] rfl).1
  · exact (h1.1 [{ field := "phoneNumber", message := "phoneNumber is required." }] rfl).2
  · exact h2.2.1 rfl (Err.storage "delete failed") rfl

end NdmDao
